import Mathlib

/-!
Verification of the oh-idk identity/trust service core against its source.

The development embeds, as executable Lean definitions:
* `src/app/crypto.py` — Ed25519 wrapper functions over base64-encoded text.
  Python `base64.b64encode` / `base64.b64decode` (CPython `binascii.a2b_base64`
  in non-strict mode) are embedded concretely; the nacl Ed25519 primitive
  itself is an external C library and is abstracted as a `SigScheme`
  parameter together with the `GoodScheme` contract its documentation states.
* `src/app/auth.py` — the FastAPI authentication dependencies, with the
  request clock and the already-decoded body as explicit parameters.
* `src/app/trust.py` against `src/app/models.py` — the trust-score
  algorithm.  trust.py still reads the pre-migration ORM attributes
  `identity.id`, `Vouch.vouchee_id` and `vouch.id`, which migration 002
  (`src/alembic/versions/002_use_pubkey_as_primary_key.py`) and the current
  `models.py` removed, so those attribute reads raise `AttributeError` at
  runtime; the embedding makes the raised error explicit.  A second model,
  `trust_score_intended`, repairs exactly those attribute names to the
  post-migration columns and is used to reason about the intended algorithm.

Python `float` arithmetic is modelled by exact rationals (`Rat`); every
constant involved (1.0, 0.5, 10.0) is dyadic.
-/

/-! ## Python exceptions

The exceptions that the embedded code can raise.  `binasciiError` covers
`binascii.Error` (a `ValueError` subclass) raised by `base64.b64decode`;
`valueError` covers the length checks of the nacl key constructors;
`attributeError` is raised by an attribute access that the object does not
have. -/

inductive PyErr where
  | binasciiError (msg : String)
  | valueError (msg : String)
  | attributeError (cls attr : String)
deriving DecidableEq, Repr

deriving instance DecidableEq for Except

/-! ## Base64 (Python `base64.b64encode` / `b64decode`)

`b64decode` follows CPython `binascii.a2b_base64` in non-strict mode (the
mode `base64.b64decode` uses when `validate=False`, the default in
crypto.py): characters outside the alphabet are skipped, `=` before the
third position of a quad is ignored, enough padding after position two ends
the decode, and a dangling quad at the end is an error.  `base64.b64decode`
first encodes the text as ASCII, so any non-ASCII character is a
`ValueError`. -/

def b64chr (n : Nat) : Char :=
  if n < 26 then Char.ofNat (65 + n)
  else if n < 52 then Char.ofNat (97 + (n - 26))
  else if n < 62 then Char.ofNat (48 + (n - 52))
  else if n = 62 then '+'
  else '/'

def b64val (c : Char) : Option Nat :=
  if 65 ≤ c.toNat ∧ c.toNat ≤ 90 then some (c.toNat - 65)
  else if 97 ≤ c.toNat ∧ c.toNat ≤ 122 then some (c.toNat - 97 + 26)
  else if 48 ≤ c.toNat ∧ c.toNat ≤ 57 then some (c.toNat - 48 + 52)
  else if c = '+' then some 62
  else if c = '/' then some 63
  else none

/-- Three bytes become four alphabet characters; a tail of one or two bytes
is completed with `=` padding, as in `binascii.b2a_base64`. -/
def b64encodeChunks : List Nat → List Char
  | a :: b :: c :: rest =>
    b64chr (a / 4) :: b64chr (a % 4 * 16 + b / 16) ::
      b64chr (b % 16 * 4 + c / 64) :: b64chr (c % 64) :: b64encodeChunks rest
  | [a, b] => [b64chr (a / 4), b64chr (a % 4 * 16 + b / 16), b64chr (b % 16 * 4), '=']
  | [a] => [b64chr (a / 4), b64chr (a % 4 * 16), '=', '=']
  | [] => []

/-- `base64.b64encode` followed by `.decode` to text: bytes in, string out. -/
def b64encode (bs : List Nat) : String :=
  String.mk (b64encodeChunks bs)

/-- The quad state machine of `binascii.a2b_base64` (non-strict mode).
State: remaining input, quad position (0–3), the pending high bits
(`leftchar`), the count of pending pads, and the bytes emitted so far in
reverse order. -/
def a2bBase64 : List Char → Nat → Nat → Nat → List Nat → Except PyErr (List Nat)
  | [], quadPos, _, _, acc =>
    if quadPos = 0 then .ok acc.reverse
    else if quadPos = 1 then
      .error (.binasciiError "Invalid base64-encoded string: number of data characters cannot be 1 more than a multiple of 4")
    else .error (.binasciiError "Incorrect padding")
  | c :: rest, quadPos, leftchar, pads, acc =>
    if c = '=' then
      if 2 ≤ quadPos then
        if 4 ≤ quadPos + (pads + 1) then .ok acc.reverse
        else a2bBase64 rest quadPos leftchar (pads + 1) acc
      else a2bBase64 rest quadPos leftchar pads acc
    else
      match b64val c with
      | none => a2bBase64 rest quadPos leftchar pads acc
      | some v =>
        match quadPos with
        | 0 => a2bBase64 rest 1 v 0 acc
        | 1 => a2bBase64 rest 2 (v % 16) 0 ((leftchar * 4 + v / 16) :: acc)
        | 2 => a2bBase64 rest 3 (v % 4) 0 ((leftchar * 16 + v / 4) :: acc)
        | _ => a2bBase64 rest 0 0 0 ((leftchar * 64 + v) :: acc)

/-- `base64.b64decode` on text: ASCII check, then the `a2b_base64` machine. -/
def b64decode (s : String) : Except PyErr (List Nat) :=
  if s.data.all (fun c => c.toNat ≤ 127) then a2bBase64 s.data 0 0 0 []
  else .error (.valueError "string argument should contain only ASCII characters")

example : b64decode "" = .ok [] := by decide
example : b64decode "AAAA" = .ok [0, 0, 0] := by decide
example : b64decode "QUJD" = .ok [65, 66, 67] := by decide
example : b64decode "AA==" = .ok [0] := by decide
example : b64decode "AA==AAAA" = .ok [0] := by decide
example : b64decode "!!!" = .ok [] := by decide
example : b64decode "AA" = .error (.binasciiError "Incorrect padding") := by decide
example : (b64decode "A").isOk = false := by decide
example : b64encode [0] = "AA==" := by decide
example : b64encode [65, 66, 67] = "QUJD" := by decide

/-! ### Encode/decode roundtrip -/

theorem b64val_b64chr {v : Nat} (h : v < 64) : b64val (b64chr v) = some v := by
  interval_cases v <;> decide

theorem b64chr_ne_pad {v : Nat} (h : v < 64) : (b64chr v = '=') = False := by
  interval_cases v <;> decide

theorem b64chr_ascii {v : Nat} (h : v < 64) : (b64chr v).toNat ≤ 127 := by
  interval_cases v <;> decide

theorem a2bBase64_encodeChunks (bs : List Nat) (h : ∀ x ∈ bs, x < 256) (acc : List Nat) :
    a2bBase64 (b64encodeChunks bs) 0 0 0 acc = .ok (acc.reverse ++ bs) := by
  induction bs using b64encodeChunks.induct generalizing acc with
  | case1 a b c rest ih =>
    have ha : a < 256 := h a (by simp)
    have hb : b < 256 := h b (by simp)
    have hc : c < 256 := h c (by simp)
    have h1 : a / 4 < 64 := by omega
    have h2 : a % 4 * 16 + b / 16 < 64 := by omega
    have h3 : b % 16 * 4 + c / 64 < 64 := by omega
    have h4 : c % 64 < 64 := by omega
    rw [b64encodeChunks]
    rw [a2bBase64]
    simp only [b64chr_ne_pad h1, if_false, b64val_b64chr h1]
    rw [a2bBase64]
    simp only [b64chr_ne_pad h2, if_false, b64val_b64chr h2]
    rw [a2bBase64]
    simp only [b64chr_ne_pad h3, if_false, b64val_b64chr h3]
    rw [a2bBase64]
    simp only [b64chr_ne_pad h4, if_false, b64val_b64chr h4]
    have e1 : a / 4 * 4 + (a % 4 * 16 + b / 16) / 16 = a := by omega
    have e2 : (a % 4 * 16 + b / 16) % 16 * 16 + (b % 16 * 4 + c / 64) / 4 = b := by omega
    have e3 : (b % 16 * 4 + c / 64) % 4 * 64 + c % 64 = c := by omega
    rw [e1, e2, e3, ih (fun x hx => h x (by simp [hx]))]
    simp
  | case2 a b =>
    have ha : a < 256 := h a (by simp)
    have hb : b < 256 := h b (by simp)
    have h1 : a / 4 < 64 := by omega
    have h2 : a % 4 * 16 + b / 16 < 64 := by omega
    have h3 : b % 16 * 4 < 64 := by omega
    rw [b64encodeChunks]
    rw [a2bBase64]
    simp only [b64chr_ne_pad h1, if_false, b64val_b64chr h1]
    rw [a2bBase64]
    simp only [b64chr_ne_pad h2, if_false, b64val_b64chr h2]
    rw [a2bBase64]
    simp only [b64chr_ne_pad h3, if_false, b64val_b64chr h3]
    have e1 : a / 4 * 4 + (a % 4 * 16 + b / 16) / 16 = a := by omega
    have e2 : (a % 4 * 16 + b / 16) % 16 * 16 + b % 16 * 4 / 4 = b := by omega
    rw [e1, e2, a2bBase64]
    simp
  | case3 a =>
    have ha : a < 256 := h a (by simp)
    have h1 : a / 4 < 64 := by omega
    have h2 : a % 4 * 16 < 64 := by omega
    rw [b64encodeChunks]
    rw [a2bBase64]
    simp only [b64chr_ne_pad h1, if_false, b64val_b64chr h1]
    rw [a2bBase64]
    simp only [b64chr_ne_pad h2, if_false, b64val_b64chr h2]
    have e1 : a / 4 * 4 + a % 4 * 16 / 16 = a := by omega
    rw [e1, a2bBase64]
    norm_num
    rw [a2bBase64]
    simp
  | case4 =>
    rw [b64encodeChunks, a2bBase64]
    simp

theorem b64encodeChunks_ascii (bs : List Nat) (h : ∀ x ∈ bs, x < 256) :
    ∀ c ∈ b64encodeChunks bs, c.toNat ≤ 127 := by
  induction bs using b64encodeChunks.induct with
  | case1 a b c rest ih =>
    have ha : a < 256 := h a (by simp)
    have hb : b < 256 := h b (by simp)
    have hc : c < 256 := h c (by simp)
    rw [b64encodeChunks]
    intro x hx
    simp only [List.mem_cons] at hx
    rcases hx with rfl | rfl | rfl | rfl | hx
    · exact b64chr_ascii (by omega)
    · exact b64chr_ascii (by omega)
    · exact b64chr_ascii (by omega)
    · exact b64chr_ascii (by omega)
    · exact ih (fun x hx => h x (by simp [hx])) x hx
  | case2 a b =>
    have ha : a < 256 := h a (by simp)
    have hb : b < 256 := h b (by simp)
    rw [b64encodeChunks]
    intro x hx
    simp only [List.mem_cons, List.not_mem_nil, or_false] at hx
    rcases hx with rfl | rfl | rfl | rfl
    · exact b64chr_ascii (by omega)
    · exact b64chr_ascii (by omega)
    · exact b64chr_ascii (by omega)
    · decide
  | case3 a =>
    have ha : a < 256 := h a (by simp)
    rw [b64encodeChunks]
    intro x hx
    simp only [List.mem_cons, List.not_mem_nil, or_false] at hx
    rcases hx with rfl | rfl | rfl | rfl
    · exact b64chr_ascii (by omega)
    · exact b64chr_ascii (by omega)
    · decide
    · decide
  | case4 =>
    rw [b64encodeChunks]
    intro x hx
    simp at hx

/-- Decoding inverts encoding: the property behind every base64 roundtrip in
crypto.py (keys and signatures both). -/
theorem b64_roundtrip (bs : List Nat) (h : ∀ x ∈ bs, x < 256) :
    b64decode (b64encode bs) = .ok bs := by
  have hascii : ((String.mk (b64encodeChunks bs)).data.all fun c => c.toNat ≤ 127) = true := by
    rw [List.all_eq_true]
    intro c hc
    simpa using b64encodeChunks_ascii bs h c hc
  rw [b64decode, b64encode, hascii, if_pos rfl]
  simpa using a2bBase64_encodeChunks bs h []

/-! ## UTF-8 (Python `str.encode` with the utf-8 codec)

Lean strings, like Python strings, are sequences of unicode scalar values;
the encoder below is the standard UTF-8 byte layout.  (Python strings can
additionally hold lone surrogates, which `encode` rejects; those have no
Lean counterpart and are outside the embedded input universe.) -/

def utf8EncodeChar (c : Char) : List Nat :=
  let n := c.toNat
  if n < 128 then [n]
  else if n < 2048 then [192 + n / 64, 128 + n % 64]
  else if n < 65536 then [224 + n / 4096, 128 + n / 64 % 64, 128 + n % 64]
  else [240 + n / 262144, 128 + n / 4096 % 64, 128 + n / 64 % 64, 128 + n % 64]

def utf8Bytes (s : String) : List Nat :=
  s.data.flatMap utf8EncodeChar

example : utf8Bytes "AB" = [65, 66] := by decide
example : utf8Bytes "" = [] := by decide

/-! ## The Ed25519 primitive (PyNaCl)

crypto.py delegates key derivation, signing and verification to the nacl
library (libsodium), which is outside this repository.  It is abstracted as
a `SigScheme`; `GoodScheme` states the contract the library documents and
crypto.py relies on: a seed of 32 bytes yields a 32-byte verification key,
signatures are 64 bytes, and a signature produced by `sign` under a seed
verifies under the derived key.  Length checks that PyNaCl itself performs
in Python (`SigningKey`/`VerifyKey` constructors and `VerifyKey.verify`)
are embedded concretely below, in the crypto.py wrappers that trigger
them. -/

structure SigScheme where
  pubOf : List Nat → List Nat
  sign : List Nat → List Nat → List Nat
  verify : List Nat → List Nat → List Nat → Bool

structure GoodScheme (S : SigScheme) : Prop where
  pub_len : ∀ seed, seed.length = 32 → (S.pubOf seed).length = 32
  pub_bytes : ∀ seed, (∀ b ∈ seed, b < 256) → ∀ b ∈ S.pubOf seed, b < 256
  sign_len : ∀ seed msg, (S.sign seed msg).length = 64
  sign_bytes : ∀ seed msg, ∀ b ∈ S.sign seed msg, b < 256
  correct : ∀ seed msg, seed.length = 32 → S.verify (S.pubOf seed) msg (S.sign seed msg) = true

/-! ## crypto.py -/

/-- crypto.py `generate_keypair`: `SigningKey.generate()` draws a fresh
32-byte seed, modelled here as the explicit `seed` argument; the result is
the pair `(public_key_base64, private_key_base64)`. -/
def generate_keypair (S : SigScheme) (seed : List Nat) : String × String :=
  (b64encode (S.pubOf seed), b64encode seed)

/-- crypto.py `sign_message`: decode the private key, build a `SigningKey`
(whose constructor raises `ValueError` unless the seed is exactly 32
bytes), sign the UTF-8 bytes of the message, and return the base64 of the
64-byte signature.  No exception handler here: errors propagate. -/
def sign_message (S : SigScheme) (private_key_b64 message : String) : Except PyErr String :=
  match b64decode private_key_b64 with
  | .error e => .error e
  | .ok private_key_bytes =>
    if private_key_bytes.length = 32 then
      .ok (b64encode (S.sign private_key_bytes (utf8Bytes message)))
    else .error (.valueError "The seed must be exactly 32 bytes long")

/-- crypto.py `verify_signature`: the whole body sits in a
`try/except (BadSignature, ValueError, Exception)` whose handler returns
`False`, so every failure path (either base64 decode, the `VerifyKey`
32-byte constructor check, the 64-byte signature length check inside
`VerifyKey.verify`, or `BadSignature` itself) collapses to `false` and the
function is total with a boolean result. -/
def verify_signature (S : SigScheme) (public_key_b64 message signature_b64 : String) : Bool :=
  match b64decode public_key_b64, b64decode signature_b64 with
  | .ok public_key_bytes, .ok signature_bytes =>
    if public_key_bytes.length = 32 then
      if signature_bytes.length = 64 then
        S.verify public_key_bytes (utf8Bytes message) signature_bytes
      else false
    else false
  | _, _ => false

/-- crypto.py `is_valid_public_key`: decode, check for exactly 32 raw
bytes, then construct a `VerifyKey` (which, in PyNaCl, only re-checks the
length); the surrounding `except Exception` maps every failure to
`False`. -/
def is_valid_public_key (public_key_b64 : String) : Bool :=
  match b64decode public_key_b64 with
  | .ok key_bytes => if key_bytes.length = 32 then true else false
  | .error _ => false

/-- The f-string `f"{method}:{path}:{timestamp}:{body}"` of crypto.py lines
92 and 128 (identical in `create_request_signature` and
`verify_request_signature`); the method is interpolated exactly as given,
with no case conversion or other normalization. -/
def request_message (method path : String) (timestamp : Int) (body : String) : String :=
  method ++ ":" ++ path ++ ":" ++ toString timestamp ++ ":" ++ body

/-- crypto.py `create_request_signature` (the `body` parameter defaults to
`""` in the source). -/
def create_request_signature (S : SigScheme) (private_key_b64 method path : String)
    (timestamp : Int) (body : String) : Except PyErr String :=
  sign_message S private_key_b64 (request_message method path timestamp body)

/-- crypto.py `verify_request_signature`: `current_time = int(time.time())`
is the explicit `current_time` argument; reject when
`abs(current_time - timestamp) > max_age_seconds`, otherwise verify the
signature over the same canonical message (`max_age_seconds` defaults to
300 in the source). -/
def verify_request_signature (S : SigScheme) (current_time : Int)
    (public_key_b64 method path : String) (timestamp : Int)
    (signature_b64 body : String) (max_age_seconds : Int) : Bool :=
  if |current_time - timestamp| > max_age_seconds then false
  else verify_signature S public_key_b64 (request_message method path timestamp body) signature_b64

/-- The canonical message as §4.2 of the spec words it: an uppercase
method, the path as presented, the decimal timestamp and the raw body,
colon-joined.  (ASCII uppercasing; HTTP methods are ASCII.)  Used only to
compare the spec wording with `request_message`. -/
def canonical_message_spec (method path : String) (timestamp : Int) (body : String) : String :=
  String.mk (method.data.map Char.toUpper) ++ ":" ++ path ++ ":" ++ toString timestamp ++ ":" ++ body

/-! A degenerate but contract-satisfying signature scheme, used to witness
theorems that hold for every `GoodScheme`. -/

def toyScheme : SigScheme where
  pubOf := fun seed => seed
  sign := fun _ _ => List.replicate 64 0
  verify := fun _ _ sig => sig == List.replicate 64 0

theorem toyScheme_good : GoodScheme toyScheme := by
  constructor <;> intros <;> simp_all [toyScheme]

def toySeed : List Nat := List.replicate 32 0

/-! ## auth.py

The FastAPI boundary is embedded with the request pieces auth.py actually
reads as explicit arguments: the clock (`int(time.time())`), the method,
the URL path, the UTF-8-decoded request body, and the three `X-` headers.
`int(x_timestamp)` is embedded by `pythonInt`, the ASCII fragment of the
Python `int` constructor: optional surrounding whitespace, an optional
sign, then decimal digits possibly separated by single underscores.
(Python additionally accepts non-ASCII unicode digits and whitespace; those
inputs are outside the modelled universe.) -/

def isPyWhitespace (c : Char) : Bool :=
  c = ' ' ∨ c = '\t' ∨ c = '\n' ∨ c = '\r' ∨ c.toNat = 11 ∨ c.toNat = 12

/-- Digits-with-underscores tail: after at least one digit has been read,
an underscore is legal only when a digit follows immediately. -/
def pyDigits : List Char → Nat → Option Nat
  | [], acc => some acc
  | c :: rest, acc =>
    if c.isDigit then pyDigits rest (acc * 10 + (c.toNat - 48))
    else if c = '_' then
      match rest with
      | d :: rest2 => if d.isDigit then pyDigits rest2 (acc * 10 + (d.toNat - 48)) else none
      | [] => none
    else none

def pyNatOfChars : List Char → Option Nat
  | [] => none
  | c :: rest => if c.isDigit then pyDigits rest (c.toNat - 48) else none

/-- `int(s)` for base-10 text (ASCII fragment): `none` models the
`ValueError` that `int` raises on a non-numeric string. -/
def pythonInt (s : String) : Option Int :=
  let cs := (s.data.dropWhile isPyWhitespace).reverse.dropWhile isPyWhitespace |>.reverse
  match cs with
  | '+' :: rest => (pyNatOfChars rest).map (fun n => (n : Int))
  | '-' :: rest => (pyNatOfChars rest).map (fun n => -(n : Int))
  | _ => (pyNatOfChars cs).map (fun n => (n : Int))

example : pythonInt "123" = some 123 := by decide
example : pythonInt " -42 " = some (-42) := by decide
example : pythonInt "+7" = some 7 := by decide
example : pythonInt "1_0" = some 10 := by decide
example : pythonInt "1__0" = none := by decide
example : pythonInt "_1" = none := by decide
example : pythonInt "1_" = none := by decide
example : pythonInt "" = none := by decide
example : pythonInt "abc" = none := by decide
example : pythonInt "12a" = none := by decide
example : pythonInt "+ 5" = none := by decide

/-- auth.py `verify_auth_headers` either raises `HTTPException(status, detail)`
(the `httpError` constructor) or returns the public key. -/
inductive AuthResult where
  | httpError (status : Nat) (detail : String)
  | ok (public_key : String)
deriving DecidableEq, Repr

/-- auth.py `verify_auth_headers`: `int(x_timestamp)` failing is HTTP 400
"Invalid timestamp format" before anything else happens; then
`verify_request_signature` (with its default `max_age_seconds=300`) decides
between HTTP 401 "Invalid signature or timestamp expired" and returning
`x_public_key`.  (the utf-8 decode of `request.body()` is the `body_str`
argument; an empty body decodes to `""` in the source.) -/
def verify_auth_headers (S : SigScheme) (current_time : Int)
    (method path body_str x_public_key x_timestamp x_signature : String) : AuthResult :=
  match pythonInt x_timestamp with
  | none => .httpError 400 "Invalid timestamp format"
  | some timestamp =>
    if verify_request_signature S current_time x_public_key method path timestamp x_signature body_str 300 then
      .ok x_public_key
    else .httpError 401 "Invalid signature or timestamp expired"

/-- auth.py `optional_auth_headers`: `if not all([...])` is Python
truthiness, so a missing header (`None`) and a present-but-empty header
(`""`) both short-circuit to `None`; then a numeric timestamp within 300
seconds of the clock returns the public key with no signature check
(the source comment says the body is unavailable here). -/
def optional_auth_headers (current_time : Int)
    (x_public_key x_timestamp x_signature : Option String) : Option String :=
  if x_public_key.getD "" = "" ∨ x_timestamp.getD "" = "" ∨ x_signature.getD "" = "" then none
  else
    match pythonInt (x_timestamp.getD "") with
    | none => none
    | some timestamp =>
      if |current_time - timestamp| > 300 then none
      else x_public_key

/-! ## models.py and trust.py

`Identity` and `Vouch` carry exactly the columns `models.py` declares after
migration 002 (public keys are the primary keys; there are no `id`,
`voucher_id` or `vouchee_id` columns).  Timestamps are modelled on an
integer timeline and the database as in-memory lists, with the list order
of `Database.vouches` standing for the storage iteration order of the
query result (`get_active_vouches_for` issues a `SELECT` with no
`ORDER BY`).  `settings` are the config.py defaults. -/

structure Identity where
  public_key : String
  created_at : Int
  metadata_json : Option String
  is_active : Bool
deriving DecidableEq, Repr

structure Vouch where
  voucher_public_key : String
  vouchee_public_key : String
  created_at : Int
  expires_at : Option Int
  revoked : Bool
  revoked_at : Option Int
deriving DecidableEq, Repr

structure Database where
  identities : List Identity
  vouches : List Vouch
deriving DecidableEq, Repr

def settings_trust_decay_factor : Rat := 1/2

def settings_max_trust_score : Rat := 10

/-- `session.execute(select(Identity).where(Identity.public_key == pk))`
followed by `.scalar_one_or_none()`; `public_key` is the primary key, so at
most one row matches. -/
def scalar_one_or_none (db : Database) (public_key : String) : Option Identity :=
  db.identities.find? (fun i => i.public_key == public_key)

/-- trust.py lines 75 and 123 read `identity.id`.  `models.py` (after
migration 002) declares only `public_key`, `created_at`, `metadata_json`
and `is_active` on `Identity`, so this attribute access raises
`AttributeError` at runtime. -/
def identity_id_attribute (_identity : Identity) : Except PyErr String :=
  .error (.attributeError "Identity" "id")

/-- trust.py line 129 reads `vouch.id`; `models.py` `Vouch` has a composite
primary key and no `id` column, so this access raises `AttributeError`. -/
def vouch_id_attribute (_vouch : Vouch) : Except PyErr String :=
  .error (.attributeError "Vouch" "id")

/-- trust.py `get_active_vouches_for` builds
`select(Vouch).where(Vouch.vouchee_id == identity_id).where(...)`.
Evaluating the class attribute `Vouch.vouchee_id` raises `AttributeError`
(the column is `vouchee_public_key` since migration 002) before any row is
touched, so the function never returns a list. -/
def get_active_vouches_for (_db : Database) (_now : Int) (_identity_id : String) :
    Except PyErr (List Vouch) :=
  .error (.attributeError "Vouch" "vouchee_id")

/-- The `for vouch in vouches` loop of `calculate_trust_score`: each edge
contributes `1.0`, plus, when `max_depth > 0` (`recurse = some f`), the
score of the voucher times the decay factor.  The Python visited set is
mutated in place across the whole call tree, so the loop threads it
through every recursive call. -/
def vouch_loop (recurse : Option (String → List String → Except PyErr (Rat × List String))) :
    List Vouch → Rat → List String → Except PyErr (Rat × List String)
  | [], total_score, visited => .ok (total_score, visited)
  | vouch :: rest, total_score, visited =>
    match recurse with
    | none => vouch_loop recurse rest (total_score + 1) visited
    | some f =>
      match f vouch.voucher_public_key visited with
      | .error e => .error e
      | .ok (voucher_trust, visited2) =>
        vouch_loop recurse rest (total_score + (1 + voucher_trust * settings_trust_decay_factor)) visited2

/-- trust.py `calculate_trust_score`, faithfully against `models.py`: the
visited-set short-circuit and the `identity is None` short-circuit behave
as documented, but any identity that exists reaches `identity.id` on line
75 and raises `AttributeError`, so the vouch loop below that line is dead
code under the current schema. -/
def calculate_trust_score (db : Database) (now : Int) :
    Nat → String → List String → Except PyErr (Rat × List String)
  | max_depth, public_key, visited =>
    if public_key ∈ visited then .ok (0, visited)
    else
      let visited1 := public_key :: visited
      match scalar_one_or_none db public_key with
      | none => .ok (0, visited1)
      | some identity =>
        match identity_id_attribute identity with
        | .error e => .error e
        | .ok identity_id =>
          match get_active_vouches_for db now identity_id with
          | .error e => .error e
          | .ok vouches =>
            if vouches.isEmpty then .ok (0, visited1)
            else
              match vouch_loop
                  (match max_depth with
                   | 0 => none
                   | d + 1 => some (fun pk vis => calculate_trust_score db now d pk vis))
                  vouches 0 visited1 with
              | .error e => .error e
              | .ok (total_score, visited2) => .ok (min total_score settings_max_trust_score, visited2)

/-- The dictionary `get_trust_info` returns. -/
structure VouchInfo where
  id : String
  voucher_public_key : String
  created_at : Int
  expires_at : Option Int
  revoked : Bool
deriving DecidableEq, Repr

structure TrustInfo where
  exists_flag : Bool
  trust_score : Rat
  direct_vouches : Nat
  vouches : List VouchInfo
deriving DecidableEq, Repr

def vouch_infos : List Vouch → Except PyErr (List VouchInfo)
  | [] => .ok []
  | vouch :: rest =>
    match vouch_id_attribute vouch with
    | .error e => .error e
    | .ok vid =>
      match vouch_infos rest with
      | .error e => .error e
      | .ok infos =>
        .ok ({ id := vid, voucher_public_key := vouch.voucher_public_key,
               created_at := vouch.created_at, expires_at := vouch.expires_at,
               revoked := vouch.revoked } :: infos)

/-- trust.py `get_trust_info`: a missing identity short-circuits to the
zero record before any vouch query or score computation; an existing one
reads `identity.id` and raises. -/
def get_trust_info (db : Database) (now : Int) (public_key : String) : Except PyErr TrustInfo :=
  match scalar_one_or_none db public_key with
  | none => .ok { exists_flag := false, trust_score := 0, direct_vouches := 0, vouches := [] }
  | some identity =>
    match identity_id_attribute identity with
    | .error e => .error e
    | .ok identity_id =>
      match get_active_vouches_for db now identity_id with
      | .error e => .error e
      | .ok vouches =>
        match calculate_trust_score db now 3 public_key [] with
        | .error e => .error e
        | .ok (trust_score, _) =>
          match vouch_infos vouches with
          | .error e => .error e
          | .ok infos =>
            .ok { exists_flag := true, trust_score := trust_score,
                  direct_vouches := vouches.length, vouches := infos }

/-! ### The intended algorithm

`trust_score_intended` is trust.py `calculate_trust_score` with exactly the
two stale attribute names repaired to the post-migration columns
(`identity.id` → `identity.public_key`, `Vouch.vouchee_id` →
`Vouch.vouchee_public_key`), as migration 002 and every query in main.py
indicate was the intent; nothing else differs from the faithful model.  It
is used to reason about the algorithm the spec describes (bounds, cycle
behaviour, iteration-order sensitivity). -/

/-- The `WHERE` clauses of `get_active_vouches_for`: not revoked, and
either no expiry or an expiry strictly in the future. -/
def is_active_vouch (now : Int) (v : Vouch) : Bool :=
  !v.revoked && (match v.expires_at with
                 | none => true
                 | some e => now < e)

def get_active_vouches_intended (db : Database) (now : Int) (public_key : String) : List Vouch :=
  db.vouches.filter (fun v => v.vouchee_public_key == public_key && is_active_vouch now v)

def trust_loop_intended (recurse : Option (String → List String → Rat × List String)) :
    List Vouch → Rat → List String → Rat × List String
  | [], total_score, visited => (total_score, visited)
  | vouch :: rest, total_score, visited =>
    match recurse with
    | none => trust_loop_intended recurse rest (total_score + 1) visited
    | some f =>
      match f vouch.voucher_public_key visited with
      | (voucher_trust, visited2) =>
        trust_loop_intended recurse rest (total_score + (1 + voucher_trust * settings_trust_decay_factor)) visited2

/-- The final `min(total_score, settings.max_trust_score)` applied to the
loop result, keeping the threaded visited set. -/
def clamp_total (r : Rat × List String) : Rat × List String :=
  (min r.1 settings_max_trust_score, r.2)

/-- One call of `calculate_trust_score` with the recursion (taken when
`max_depth > 0`) abstracted as `recurse`: the visited-set short-circuit,
the identity lookup, the empty-vouches short-circuit, then the loop and
the clamp. -/
def trust_step (db : Database) (now : Int)
    (recurse : Option (String → List String → Rat × List String))
    (public_key : String) (visited : List String) : Rat × List String :=
  if public_key ∈ visited then (0, visited)
  else
    match scalar_one_or_none db public_key with
    | none => (0, public_key :: visited)
    | some identity =>
      if (get_active_vouches_intended db now identity.public_key).isEmpty then
        (0, public_key :: visited)
      else
        clamp_total (trust_loop_intended recurse
          (get_active_vouches_intended db now identity.public_key) 0 (public_key :: visited))

def trust_score_intended (db : Database) (now : Int) :
    Nat → String → List String → Rat × List String
  | 0 => trust_step db now none
  | max_depth + 1 =>
    trust_step db now (some (fun pk vis => trust_score_intended db now max_depth pk vis))

/-! ### Bounds of the intended algorithm -/

theorem trust_loop_intended_nonneg
    (recurse : Option (String → List String → Rat × List String))
    (hrec : ∀ f, recurse = some f → ∀ pk vis, 0 ≤ (f pk vis).1) :
    ∀ (l : List Vouch) (acc : Rat) (vis : List String),
      0 ≤ acc → 0 ≤ (trust_loop_intended recurse l acc vis).1 := by
  intro l
  induction l with
  | nil =>
    intro acc vis hacc
    simpa [trust_loop_intended] using hacc
  | cons vouch rest ih =>
    intro acc vis hacc
    match hr : recurse with
    | none =>
      rw [trust_loop_intended]
      exact ih _ _ (by linarith)
    | some f =>
      rw [trust_loop_intended]
      have h0 : 0 ≤ (f vouch.voucher_public_key vis).1 := hrec f rfl _ _
      have h1 : 0 ≤ (f vouch.voucher_public_key vis).1 * settings_trust_decay_factor := by
        have hd : (0 : Rat) ≤ settings_trust_decay_factor := by
          norm_num [settings_trust_decay_factor]
        exact mul_nonneg h0 hd
      exact ih _ _ (by linarith)

theorem trust_step_nonneg (db : Database) (now : Int)
    (recurse : Option (String → List String → Rat × List String))
    (hrec : ∀ f, recurse = some f → ∀ pk vis, 0 ≤ (f pk vis).1)
    (pk : String) (vis : List String) :
    0 ≤ (trust_step db now recurse pk vis).1 := by
  unfold trust_step
  split
  · norm_num
  · split
    · norm_num
    · split
      · norm_num
      · unfold clamp_total
        refine le_min ?_ ?_
        · exact trust_loop_intended_nonneg recurse hrec _ _ _ le_rfl
        · norm_num [settings_max_trust_score]

theorem trust_score_intended_nonneg (db : Database) (now : Int) :
    ∀ (d : Nat) (pk : String) (vis : List String),
      0 ≤ (trust_score_intended db now d pk vis).1 := by
  intro d
  induction d with
  | zero =>
    intro pk vis
    simp only [trust_score_intended]
    exact trust_step_nonneg db now none (by intro f hf; cases hf) pk vis
  | succ d ih =>
    intro pk vis
    simp only [trust_score_intended]
    exact trust_step_nonneg db now _ (by intro f hf pk2 vis2; cases hf; exact ih pk2 vis2) pk vis

theorem trust_step_le (db : Database) (now : Int)
    (recurse : Option (String → List String → Rat × List String))
    (pk : String) (vis : List String) :
    (trust_step db now recurse pk vis).1 ≤ settings_max_trust_score := by
  unfold trust_step
  split
  · norm_num [settings_max_trust_score]
  · split
    · norm_num [settings_max_trust_score]
    · split
      · norm_num [settings_max_trust_score]
      · exact min_le_right _ _

theorem trust_score_intended_le (db : Database) (now : Int)
    (d : Nat) (pk : String) (vis : List String) :
    (trust_score_intended db now d pk vis).1 ≤ settings_max_trust_score := by
  cases d <;> simp only [trust_score_intended] <;> apply trust_step_le

/-! ### Concrete graphs -/

def mkIdentity (pk : String) : Identity :=
  { public_key := pk, created_at := 0, metadata_json := none, is_active := true }

def mkVouch (voucher vouchee : String) : Vouch :=
  { voucher_public_key := voucher, vouchee_public_key := vouchee,
    created_at := 0, expires_at := none, revoked := false, revoked_at := none }

/-- Two registered identities, one active vouch B → A. -/
def db_pair : Database :=
  { identities := [mkIdentity "A", mkIdentity "B"], vouches := [mkVouch "B" "A"] }

/-- The 2-cycle of the spec: A vouches B and B vouches A. -/
def db_cycle : Database :=
  { identities := [mkIdentity "A", mkIdentity "B"],
    vouches := [mkVouch "A" "B", mkVouch "B" "A"] }

/-- One registered identity N with no vouches at all; Z is unregistered. -/
def db_lone : Database :=
  { identities := [mkIdentity "N"], vouches := [] }

/-- A is vouched by B and C; B by X; C by W; W by X; X by Y.  Two copies
that differ only in the stored order of the first two rows. -/
def db_order1 : Database :=
  { identities := [mkIdentity "A", mkIdentity "B", mkIdentity "C",
                   mkIdentity "W", mkIdentity "X", mkIdentity "Y"],
    vouches := [mkVouch "B" "A", mkVouch "C" "A", mkVouch "X" "B",
                mkVouch "W" "C", mkVouch "X" "W", mkVouch "Y" "X"] }

def db_order2 : Database :=
  { identities := db_order1.identities,
    vouches := [mkVouch "C" "A", mkVouch "B" "A", mkVouch "X" "B",
                mkVouch "W" "C", mkVouch "X" "W", mkVouch "Y" "X"] }

/-! ## Claim theorems -/

/-- Shared helper: signing with the base64 seed succeeds and the produced
signature verifies under the base64 derived key, for any scheme meeting
the PyNaCl contract. -/
theorem sign_then_verify (S : SigScheme) (hS : GoodScheme S)
    (seed : List Nat) (hlen : seed.length = 32) (hbytes : ∀ b ∈ seed, b < 256)
    (message : String) :
    sign_message S (b64encode seed) message
      = .ok (b64encode (S.sign seed (utf8Bytes message)))
    ∧ verify_signature S (b64encode (S.pubOf seed)) message
        (b64encode (S.sign seed (utf8Bytes message))) = true := by
  constructor
  · rw [sign_message, b64_roundtrip seed hbytes]
    simp [hlen]
  · rw [verify_signature, b64_roundtrip _ (hS.pub_bytes seed hbytes),
      b64_roundtrip _ (hS.sign_bytes seed (utf8Bytes message))]
    simp [hS.pub_len seed hlen, hS.sign_len seed (utf8Bytes message),
      hS.correct seed (utf8Bytes message) hlen]

/-- C1: for every key pair produced by `generate_keypair` (any 32-byte
seed, any scheme meeting the PyNaCl contract) and every message string —
the empty string and unicode text included, since the quantifier ranges
over all Lean strings — the signature `sign_message` produces under the
private key makes `verify_signature` return `true` under the public
key. -/
theorem sign_verify_roundtrip (S : SigScheme) (hS : GoodScheme S)
    (seed : List Nat) (hlen : seed.length = 32) (hbytes : ∀ b ∈ seed, b < 256)
    (message : String) :
    ∃ signature_b64,
      sign_message S (generate_keypair S seed).2 message = .ok signature_b64
      ∧ verify_signature S (generate_keypair S seed).1 message signature_b64 = true :=
  ⟨b64encode (S.sign seed (utf8Bytes message)),
    (sign_then_verify S hS seed hlen hbytes message).1,
    (sign_then_verify S hS seed hlen hbytes message).2⟩

theorem sign_verify_roundtrip_witness :
    ∃ signature_b64,
      sign_message toyScheme (generate_keypair toyScheme toySeed).2 "héllo, 世界" = .ok signature_b64
      ∧ verify_signature toyScheme (generate_keypair toyScheme toySeed).1 "héllo, 世界" signature_b64 = true :=
  sign_verify_roundtrip toyScheme toyScheme_good toySeed (by decide) (by decide) "héllo, 世界"

/-- C2: `verify_signature` wraps its whole body in
`except (BadSignature, ValueError, Exception): return False`, so in the
embedding it is a total boolean function, and each malformed-input
condition the claim lists — undecodable base64 for either argument, a key
that is not 32 raw bytes, a signature that is not 64 raw bytes — forces
the result `false`; `is_valid_public_key` likewise maps a decode failure
or a wrong length to `false` instead of an exception. -/
theorem verify_signature_total (S : SigScheme) (pk msg sig : String) :
    (verify_signature S pk msg sig = true ∨ verify_signature S pk msg sig = false)
    ∧ (∀ e, b64decode pk = .error e →
        verify_signature S pk msg sig = false ∧ is_valid_public_key pk = false)
    ∧ (∀ e, b64decode sig = .error e → verify_signature S pk msg sig = false)
    ∧ (∀ key_bytes, b64decode pk = .ok key_bytes → key_bytes.length ≠ 32 →
        verify_signature S pk msg sig = false ∧ is_valid_public_key pk = false)
    ∧ (∀ sig_bytes, b64decode sig = .ok sig_bytes → sig_bytes.length ≠ 64 →
        verify_signature S pk msg sig = false) := by
  refine ⟨(verify_signature S pk msg sig).eq_false_or_eq_true, ?_, ?_, ?_, ?_⟩
  · intro e he
    exact ⟨by rw [verify_signature, he], by rw [is_valid_public_key, he]⟩
  · intro e he
    rw [verify_signature, he]
    cases b64decode pk <;> rfl
  · intro key_bytes hk hlen
    constructor
    · rw [verify_signature, hk]
      cases b64decode sig with
      | error e => rfl
      | ok sb => simp [hlen]
    · rw [is_valid_public_key, hk]
      simp [hlen]
  · intro sig_bytes hs hlen
    rw [verify_signature, hs]
    cases b64decode pk with
    | error e => rfl
    | ok kb =>
      by_cases h32 : kb.length = 32 <;> simp [h32, hlen]

theorem verify_signature_total_witness :
    verify_signature toyScheme "AA" "test" "AAAA" = false
    ∧ is_valid_public_key "AA" = false
    ∧ verify_signature toyScheme "!!!" "test" "AAAA" = false
    ∧ verify_signature toyScheme (b64encode toySeed) "test" "AAAA" = false := by
  refine ⟨?_, ?_, ?_, ?_⟩
  · exact ((verify_signature_total toyScheme "AA" "test" "AAAA").2.1
      (.binasciiError "Incorrect padding") (by decide)).1
  · exact ((verify_signature_total toyScheme "AA" "test" "AAAA").2.1
      (.binasciiError "Incorrect padding") (by decide)).2
  · exact ((verify_signature_total toyScheme "!!!" "test" "AAAA").2.2.2.1
      [] (by decide) (by decide)).1
  · exact (verify_signature_total toyScheme (b64encode toySeed) "test" "AAAA").2.2.2.2
      [0, 0, 0] (by decide) (by decide)

/-- C3: `verify_request_signature` returns `false` whenever
`abs(current_time - timestamp) > max_age_seconds`, whatever the signature —
past-dated and future-dated alike, since the bound is on the absolute
difference; conversely, with the matching signature over the same
`(method, path, timestamp, body)`, every timestamp within the window
(`now` and `now ± (max_age - 1)` in particular) verifies `true`. -/
theorem request_freshness (S : SigScheme) (hS : GoodScheme S)
    (seed : List Nat) (hlen : seed.length = 32) (hbytes : ∀ b ∈ seed, b < 256)
    (current_time : Int) (method path : String) (timestamp : Int) (body : String)
    (max_age_seconds : Int) :
    (∀ sig_b64, |current_time - timestamp| > max_age_seconds →
        verify_request_signature S current_time (generate_keypair S seed).1
          method path timestamp sig_b64 body max_age_seconds = false)
    ∧ (|current_time - timestamp| ≤ max_age_seconds →
        ∃ sig_b64,
          create_request_signature S (generate_keypair S seed).2
            method path timestamp body = .ok sig_b64
          ∧ verify_request_signature S current_time (generate_keypair S seed).1
              method path timestamp sig_b64 body max_age_seconds = true) := by
  constructor
  · intro sig_b64 hstale
    rw [verify_request_signature, if_pos hstale]
  · intro hfresh
    refine ⟨b64encode (S.sign seed (utf8Bytes (request_message method path timestamp body))), ?_, ?_⟩
    · exact (sign_then_verify S hS seed hlen hbytes
        (request_message method path timestamp body)).1
    · rw [verify_request_signature, if_neg (not_lt.mpr hfresh)]
      exact (sign_then_verify S hS seed hlen hbytes
        (request_message method path timestamp body)).2

theorem request_freshness_witness :
    verify_request_signature toyScheme 1700000600 (generate_keypair toyScheme toySeed).1
      "POST" "/vouch" 1700000000 (b64encode (List.replicate 64 0)) "{}" 300 = false
    ∧ ∃ sig_b64,
        create_request_signature toyScheme (generate_keypair toyScheme toySeed).2
          "POST" "/vouch" 1700000299 "{}" = .ok sig_b64
        ∧ verify_request_signature toyScheme 1700000000 (generate_keypair toyScheme toySeed).1
            "POST" "/vouch" 1700000299 sig_b64 "{}" 300 = true :=
  ⟨(request_freshness toyScheme toyScheme_good toySeed (by decide) (by decide)
      1700000600 "POST" "/vouch" 1700000000 "{}" 300).1
      (b64encode (List.replicate 64 0)) (by decide),
   (request_freshness toyScheme toyScheme_good toySeed (by decide) (by decide)
      1700000000 "POST" "/vouch" 1700000299 "{}" 300).2 (by decide)⟩

/-- C7 as stated is false on the code: the interpolated canonical string
keeps the method exactly as the caller passed it, with no uppercasing, so
for the lowercase method "post" the signed string differs from the
spec-mandated uppercased canonical form. -/
theorem request_message_not_uppercased :
    request_message "post" "/vouch" 17 "" ≠ canonical_message_spec "post" "/vouch" 17 ""
    ∧ request_message "post" "/vouch" 17 "" = "post:/vouch:17:"
    ∧ canonical_message_spec "post" "/vouch" 17 "" = "POST:/vouch:17:" := by
  refine ⟨by decide, by decide, by decide⟩

/-- C7 amended: both `create_request_signature` and
`verify_request_signature` sign/verify exactly the colon-joined string
`request_message` — method as presented (so equal to the spec form
whenever the method is already uppercase), path unnormalized, decimal
timestamp, raw body, and the empty string standing for an absent body. -/
theorem canonical_message_amended (S : SigScheme)
    (private_key_b64 public_key_b64 : String) (current_time : Int)
    (method path : String) (timestamp : Int) (sig_b64 body : String)
    (max_age_seconds : Int) :
    create_request_signature S private_key_b64 method path timestamp body
      = sign_message S private_key_b64 (request_message method path timestamp body)
    ∧ verify_request_signature S current_time public_key_b64 method path timestamp
        sig_b64 body max_age_seconds
      = (decide (|current_time - timestamp| ≤ max_age_seconds)
          && verify_signature S public_key_b64 (request_message method path timestamp body) sig_b64)
    ∧ (method.data.map Char.toUpper = method.data →
        request_message method path timestamp body
          = canonical_message_spec method path timestamp body)
    ∧ request_message method path timestamp ""
      = method ++ ":" ++ path ++ ":" ++ toString timestamp ++ ":" := by
  refine ⟨rfl, ?_, ?_, ?_⟩
  · rw [verify_request_signature]
    by_cases h : |current_time - timestamp| > max_age_seconds
    · rw [if_pos h, decide_eq_false (by omega), Bool.false_and]
    · rw [if_neg h, decide_eq_true (by omega), Bool.true_and]
  · intro hup
    rw [canonical_message_spec, hup]
    rfl
  · simp [request_message]

theorem canonical_message_amended_witness :
    create_request_signature toyScheme "key" "POST" "/vouch" 5 "body"
      = sign_message toyScheme "key" (request_message "POST" "/vouch" 5 "body")
    ∧ request_message "POST" "/vouch" 5 "body" = canonical_message_spec "POST" "/vouch" 5 "body" :=
  ⟨(canonical_message_amended toyScheme "key" "pub" 0 "POST" "/vouch" 5 "sig" "body" 300).1,
   (canonical_message_amended toyScheme "key" "pub" 0 "POST" "/vouch" 5 "sig" "body" 300).2.2.1
     (by decide)⟩

/-- C8: when `int(x_timestamp)` fails, `verify_auth_headers` raises the
HTTP 400 client error — and the outcome is the same whatever the scheme,
clock, method, path, body, key or signature, i.e. before any signature
verification is consulted; every other failure (stale timestamp, bad
signature, malformed key — everything that makes
`verify_request_signature` return `false`) collapses to the single
HTTP 401 value, which carries no hint of the cause and differs from the
400 value. -/
theorem auth_error_separation (S S2 : SigScheme) (current_time current_time2 : Int)
    (method path body_str public_key signature : String)
    (method2 path2 body2 pk2 sig2 : String) (timestamp_str : String) :
    (pythonInt timestamp_str = none →
        verify_auth_headers S current_time method path body_str public_key timestamp_str signature
          = .httpError 400 "Invalid timestamp format"
        ∧ verify_auth_headers S current_time method path body_str public_key timestamp_str signature
          = verify_auth_headers S2 current_time2 method2 path2 body2 pk2 timestamp_str sig2)
    ∧ (∀ timestamp, pythonInt timestamp_str = some timestamp →
        verify_request_signature S current_time public_key method path timestamp
          signature body_str 300 = false →
        verify_auth_headers S current_time method path body_str public_key timestamp_str signature
          = .httpError 401 "Invalid signature or timestamp expired")
    ∧ (AuthResult.httpError 400 "Invalid timestamp format"
        ≠ AuthResult.httpError 401 "Invalid signature or timestamp expired") := by
  refine ⟨?_, ?_, by decide⟩
  · intro hparse
    rw [verify_auth_headers, verify_auth_headers, hparse]
    exact ⟨rfl, rfl⟩
  · intro timestamp hparse hfail
    rw [verify_auth_headers, hparse]
    simp [hfail]

theorem auth_error_separation_witness :
    verify_auth_headers toyScheme 0 "POST" "/vouch" "" "pk" "not-a-number" "sig"
      = .httpError 400 "Invalid timestamp format"
    ∧ verify_auth_headers toyScheme 0 "POST" "/vouch" "" "pk" "not-a-number" "sig"
      = verify_auth_headers toyScheme 999 "GET" "/other" "b" "pk2" "not-a-number" "sig2"
    ∧ verify_auth_headers toyScheme 0 "POST" "/vouch" "" "" "0" "sig"
      = .httpError 401 "Invalid signature or timestamp expired" := by
  refine ⟨?_, ?_, ?_⟩
  · exact ((auth_error_separation toyScheme toyScheme 0 999 "POST" "/vouch" "" "pk" "sig"
      "GET" "/other" "b" "pk2" "sig2" "not-a-number").1 (by decide)).1
  · exact ((auth_error_separation toyScheme toyScheme 0 999 "POST" "/vouch" "" "pk" "sig"
      "GET" "/other" "b" "pk2" "sig2" "not-a-number").1 (by decide)).2
  · exact (auth_error_separation toyScheme toyScheme 0 999 "POST" "/vouch" "" "" "sig"
      "GET" "/other" "b" "pk2" "sig2" "0").2.1 0 (by decide) (by decide)

/-- C10 as stated is false on the code: `optional_auth_headers` tests the
headers with Python truthiness (`if not all([...])`), so a signature
header that is present but empty — an arbitrary string the claim
quantifies over — yields `None` even though the public key is valid, the
timestamp is numeric and the clock matches exactly. -/
theorem optional_auth_empty_signature :
    pythonInt "0" = some 0
    ∧ |(0 : Int) - 0| ≤ 300
    ∧ optional_auth_headers 0 (some (b64encode toySeed)) (some "0") (some "") = none
    ∧ optional_auth_headers 0 (some (b64encode toySeed)) (some "0") (some "")
      ≠ some (b64encode toySeed) := by
  refine ⟨by decide, by decide, by decide, by decide⟩

/-- C10 amended: when the three headers are present and non-empty, the
timestamp is numeric and within 300 seconds of the clock, the function
returns the supplied public key no matter what the signature string
contains — no signature verification happens (there is nothing to verify
the body against here), as the quantification over `signature` shows. -/
theorem optional_auth_amended (current_time : Int)
    (public_key timestamp_str signature : String) (timestamp : Int)
    (hpk : public_key ≠ "") (hts : timestamp_str ≠ "") (hsig : signature ≠ "")
    (hparse : pythonInt timestamp_str = some timestamp)
    (hfresh : |current_time - timestamp| ≤ 300) :
    optional_auth_headers current_time
      (some public_key) (some timestamp_str) (some signature) = some public_key := by
  rw [optional_auth_headers]
  rw [if_neg (by simp [hpk, hts, hsig])]
  simp only [Option.getD_some, hparse]
  rw [if_neg (not_lt.mpr hfresh)]

theorem optional_auth_amended_witness :
    optional_auth_headers 1700000000
      (some (b64encode toySeed)) (some "1700000100") (some "garbage-not-base64!!!")
      = some (b64encode toySeed) :=
  optional_auth_amended 1700000000 (b64encode toySeed) "1700000100" "garbage-not-base64!!!"
    1700000100 (by decide) (by decide) (by decide) (by decide) (by decide)

/-- C4: the claimed interval does hold of the intended algorithm — the
clamp and the nonnegative contributions keep every score in
`[0, max_trust_score]` for every graph, identity and depth — but the
shipped code never produces a score for an existing identity: trust.py
line 75 reads `identity.id`, which the post-migration `models.py` does not
define, so the call raises `AttributeError` instead of returning a
value. -/
theorem trust_score_bounds_vs_crash :
    calculate_trust_score db_pair 0 3 "A" [] = .error (.attributeError "Identity" "id")
    ∧ ∀ (db : Database) (now : Int) (max_depth : Nat) (public_key : String),
        0 ≤ (trust_score_intended db now max_depth public_key []).1
        ∧ (trust_score_intended db now max_depth public_key []).1 ≤ settings_max_trust_score := by
  refine ⟨by decide, ?_⟩
  intro db now max_depth public_key
  exact ⟨trust_score_intended_nonneg db now max_depth public_key [],
    trust_score_intended_le db now max_depth public_key []⟩

/-- C5: the visited-set short-circuit of trust.py does return `0.0` for an
identity already on the path, and the intended algorithm terminates with
the finite score `1.5` for both members of the 2-cycle at depth 2 (its
recursion is structurally bounded by `max_depth`, as its Lean totality
shows); but on the shipped code the very first identity lookup of the
2-cycle raises `AttributeError` at `identity.id`, so no score is produced
at all. -/
theorem trust_cycle_termination_vs_crash :
    calculate_trust_score db_cycle 0 2 "A" ["A"] = .ok (0, ["A"])
    ∧ calculate_trust_score db_cycle 0 2 "A" [] = .error (.attributeError "Identity" "id")
    ∧ calculate_trust_score db_cycle 0 2 "B" [] = .error (.attributeError "Identity" "id")
    ∧ (trust_score_intended db_cycle 0 2 "A" []).1 = 3/2
    ∧ (trust_score_intended db_cycle 0 2 "B" []).1 = 3/2 := by
  refine ⟨by decide, by decide, by decide, ?_, ?_⟩
  · simp [trust_score_intended, trust_step, trust_loop_intended, clamp_total,
      get_active_vouches_intended, scalar_one_or_none, is_active_vouch,
      db_cycle, mkIdentity, mkVouch, settings_trust_decay_factor, settings_max_trust_score]
    norm_num
  · simp [trust_score_intended, trust_step, trust_loop_intended, clamp_total,
      get_active_vouches_intended, scalar_one_or_none, is_active_vouch,
      db_cycle, mkIdentity, mkVouch, settings_trust_decay_factor, settings_max_trust_score]
    norm_num

/-- C6: the defined-zero results survive in the shipped code only on the
path that never touches `identity.id`: an unregistered identity scores
`.ok 0` and `get_trust_info` short-circuits to the
`exists=false / 0.0 / empty` record without reading the vouches at all
(the quantification over the vouch table shows it); but for a registered
identity with no active vouchers — which the claim says scores `0.0` —
both functions raise `AttributeError` instead. -/
theorem trust_zero_defaults_vs_crash :
    (calculate_trust_score db_lone 0 3 "Z" []).map Prod.fst = .ok 0
    ∧ get_trust_info db_lone 0 "Z"
      = .ok { exists_flag := false, trust_score := 0, direct_vouches := 0, vouches := [] }
    ∧ (∀ vouch_table : List Vouch,
        get_trust_info { identities := db_lone.identities, vouches := vouch_table } 0 "Z"
          = .ok { exists_flag := false, trust_score := 0, direct_vouches := 0, vouches := [] })
    ∧ calculate_trust_score db_lone 0 3 "N" [] = .error (.attributeError "Identity" "id")
    ∧ get_trust_info db_lone 0 "N" = .error (.attributeError "Identity" "id") := by
  refine ⟨by decide, by decide, ?_, by decide, by decide⟩
  intro vouch_table
  rfl

/-- C9: reproducibility fails twice over.  On the shipped code no score is
produced at all (`AttributeError`, as for every existing identity).  And
the intended algorithm imposes no ordering: `get_active_vouches_for`
issues no `ORDER BY` and the loop sorts nothing, and two storage orders of
the same vouch set — same identities, permuted rows — give different
scores (3.5 versus 3.375), because the shared visited set makes earlier
edges steal transitive credit from later ones. -/
theorem trust_determinism_vs_order :
    calculate_trust_score db_order1 0 3 "A" [] = .error (.attributeError "Identity" "id")
    ∧ db_order1.identities = db_order2.identities
    ∧ db_order1.vouches.Perm db_order2.vouches
    ∧ (trust_score_intended db_order1 0 3 "A" []).1 = 7/2
    ∧ (trust_score_intended db_order2 0 3 "A" []).1 = 27/8
    ∧ (trust_score_intended db_order1 0 3 "A" []).1
      ≠ (trust_score_intended db_order2 0 3 "A" []).1 := by
  have h1 : (trust_score_intended db_order1 0 3 "A" []).1 = 7/2 := by
    simp [trust_score_intended, trust_step, trust_loop_intended, clamp_total,
      get_active_vouches_intended, scalar_one_or_none, is_active_vouch,
      db_order1, mkIdentity, mkVouch, settings_trust_decay_factor, settings_max_trust_score]
    norm_num
  have h2 : (trust_score_intended db_order2 0 3 "A" []).1 = 27/8 := by
    simp [trust_score_intended, trust_step, trust_loop_intended, clamp_total,
      get_active_vouches_intended, scalar_one_or_none, is_active_vouch,
      db_order2, db_order1, mkIdentity, mkVouch, settings_trust_decay_factor,
      settings_max_trust_score]
    norm_num
  refine ⟨by decide, rfl, ?_, h1, h2, ?_⟩
  · show (mkVouch "B" "A" :: mkVouch "C" "A" :: _).Perm (mkVouch "C" "A" :: mkVouch "B" "A" :: _)
    exact List.Perm.swap _ _ _
  · rw [h1, h2]
    norm_num
